import Mathlib

/-!
Verification of the configuration-and-session persistence layer of gomuks
(`config/config.go`).  The Go code is shallowly embedded: structs become Lean
structures, the file system becomes an explicit association list of paths to
documents plus a list of existing directories, panics become `Except.error`,
and the yaml/json marshalling of third-party libraries is modelled at the
level of keyed documents (the byte-level rendering of a document is assumed
faithful and injective, which is all the code relies on).
-/

namespace GomuksConfig

/-- AuthCache mirrors the Go struct `AuthCache` (config.go): sync token,
filter id and initial-sync flag, all yaml-tagged. -/
structure AuthCache where
  NextBatch : String
  FilterID : String
  InitialSyncDone : Bool
deriving DecidableEq

/-- UserPreferences mirrors the Go struct `UserPreferences`: eleven
independent yaml-tagged boolean toggles. -/
structure UserPreferences where
  HideUserList : Bool
  HideRoomList : Bool
  BareMessageView : Bool
  DisableImages : Bool
  DisableTypingNotifs : Bool
  DisableEmojis : Bool
  DisableMarkdown : Bool
  DisableHTML : Bool
  DisableDownloads : Bool
  DisableNotifications : Bool
  DisableShowURLs : Bool
deriving DecidableEq

/-- KeyMap mirrors the Go struct `KeyMap`: a flat record of yaml-tagged
key-string fields, one per named action. -/
structure KeyMap where
  VerificationDone : String
  VerificationSubmit : String
  FuzzySearchOpen : String
  FuzzySearchClose : String
  FuzzySearchNext : String
  FuzzySearchPrev : String
  FuzzySearchChoose : String
  RoomNext : String
  RoomPrev : String
  RoomViewTop : String
  RoomViewBottom : String
  RoomViewScrollUp : String
  RoomViewScrollDown : String
  MessageSelectCancel : String
  MessageSelectNext : String
  MessageSelectPrev : String
  MessageSelectChoose : String
  MessageInputNewline : String
  MessageInputClear : String
  MessageInputSend : String
  BareViewOpen : String
deriving DecidableEq

/-- Modelled from the spec: the push ruleset (`pushrules.PushRuleset` from the
mautrix library, not part of this repository) is an opaque serializable
payload sourced from the server; the core never inspects it. -/
structure PushRuleset where
  payload : String
deriving DecidableEq

/-- Modelled from the spec: the room-cache collaborator (`rooms.RoomCache`,
not part of the reviewed source) is constructed from the room-list file path,
the state directory and the two cache tunables, and starts out empty.  The
current-user callback passed to the Go constructor is the aggregate's
`GetUserID` method and carries no state of its own, so it is not represented. -/
structure RoomCache where
  listPath : String
  stateDir : String
  maxSize : Int
  maxAge : Int
  listLoaded : Bool
  loadedRooms : List String
deriving DecidableEq

/-- Modelled from the spec: `rooms.NewRoomCache` builds a fresh, empty
room-cache collaborator from the given path layout and tunables. -/
def NewRoomCache (listPath stateDir : String) (maxSize maxAge : Int) : RoomCache :=
  ⟨listPath, stateDir, maxSize, maxAge, false, []⟩

/-- Config mirrors the Go struct `Config`: identity and server fields,
tunables, the path layout, the active keymap name, the owned sections, the
replaceable room-cache collaborator (a nil-able pointer, hence `Option`), and
the unexported save-suppression flag `nosave`. -/
structure Config where
  UserID : String
  DeviceID : String
  AccessToken : String
  HS : String
  RoomCacheSize : Int
  RoomCacheAge : Int
  NotifySound : Bool
  SendToVerifiedOnly : Bool
  Dir : String
  DataDir : String
  CacheDir : String
  HistoryPath : String
  RoomListPath : String
  MediaDir : String
  DownloadDir : String
  StateDir : String
  Keymap : String
  KeyMap : KeyMap
  Preferences : UserPreferences
  AuthCache : AuthCache
  Rooms : Option RoomCache
  PushRules : Option PushRuleset
  nosave : Bool
deriving DecidableEq

/-- Zero value of `AuthCache` (the Go zero value). -/
def AuthCache.zero : AuthCache := ⟨"", "", false⟩

/-- Zero value of `UserPreferences` (the Go zero value). -/
def UserPreferences.zero : UserPreferences :=
  ⟨false, false, false, false, false, false, false, false, false, false, false⟩

/-- Zero value of `KeyMap` (the Go zero value). -/
def KeyMap.zero : KeyMap :=
  ⟨"", "", "", "", "", "", "", "", "", "", "", "", "", "", "", "", "", "", "", "", ""⟩

/-- Zero value of `Config` (the Go zero value: empty strings, zero ints,
false booleans, nil pointers). -/
def Config.zero : Config :=
  { UserID := "", DeviceID := "", AccessToken := "", HS := ""
    RoomCacheSize := 0, RoomCacheAge := 0
    NotifySound := false, SendToVerifiedOnly := false
    Dir := "", DataDir := "", CacheDir := "", HistoryPath := ""
    RoomListPath := "", MediaDir := "", DownloadDir := "", StateDir := ""
    Keymap := "", KeyMap := KeyMap.zero, Preferences := UserPreferences.zero
    AuthCache := AuthCache.zero, Rooms := none, PushRules := none, nosave := false }

/-- Models `filepath.Join(dir, file)` for the clean relative names the code
joins onto its directories. -/
def pjoin (dir file : String) : String := dir ++ "/" ++ file

/-- Models `strings.HasSuffix` (byte-level suffix test). -/
def hasSuffix (s suffix : String) : Bool :=
  suffix.data.isSuffixOf s.data

/-- NewConfig mirrors `NewConfig` (config.go): derives the path layout from
the four roots and sets the documented defaults. -/
def NewConfig (configDir dataDir cacheDir downloadDir : String) : Config :=
  { Config.zero with
      Dir := configDir
      DataDir := dataDir
      CacheDir := cacheDir
      DownloadDir := downloadDir
      HistoryPath := pjoin cacheDir "history.db"
      RoomListPath := pjoin cacheDir "rooms.gob.gz"
      StateDir := pjoin cacheDir "state"
      MediaDir := pjoin cacheDir "media"
      Keymap := "default"
      RoomCacheSize := 32
      RoomCacheAge := 1 * 60
      NotifySound := true
      SendToVerifiedOnly := false }

/-- Fmt tags the on-disk encoding a document was produced with: the yaml
codec, the json codec, or the external gob format of the room-cache
collaborator. -/
inductive Fmt
  | yaml
  | json
  | gob
deriving DecidableEq

/-- Scalar is one field value of a marshalled section: every section struct
is flat, so string, integer and boolean fields suffice. -/
inductive Scalar
  | str (s : String)
  | int (n : Int)
  | bool (b : Bool)
deriving DecidableEq

/-- Val is the document payload produced by marshalling a section: a keyed
mapping of scalars (the flat section structs), null (the json encoding of a
nil pointer), or the opaque ruleset payload. -/
inductive Val
  | obj (fields : List (String × Scalar))
  | null
  | rules (r : PushRuleset)
deriving DecidableEq

/-- Doc is the modelled content of one file: a payload together with the
format it was serialized in.  The byte-level rendering of a document is
assumed faithful, so files store documents directly. -/
structure Doc where
  fmt : Fmt
  val : Val
deriving DecidableEq

/-- Association-list lookup used for document fields and for the file table. -/
def alistGet {β : Type} (k : String) : List (String × β) → Option β
  | [] => none
  | (k', v) :: rest => if k == k' then some v else alistGet k rest

/-- FS models the file tree the code touches: a table of files (path to
document) and the set of directories that exist. -/
structure FS where
  files : List (String × Doc)
  dirs : List String
deriving DecidableEq

/-- Insert a directory if it is not already present (helper for `mkdirAll`). -/
def insD (d : String) (l : List String) : List String :=
  if d ∈ l then l else d :: l

/-- Models `os.MkdirAll(dir, 0700)`: after the call the directory exists; in
the model this never fails. -/
def FS.mkdirAll (fs : FS) (d : String) : FS :=
  ⟨fs.files, insD d fs.dirs⟩

/-- Models `ioutil.ReadFile`: `none` is the does-not-exist error, which is
the only read failure the model can produce. -/
def FS.readFile (fs : FS) (p : String) : Option Doc :=
  alistGet p fs.files

/-- Models `ioutil.WriteFile(path, data, 0600)`: whole-file replace. -/
def FS.writeFile (fs : FS) (p : String) (d : Doc) : FS :=
  ⟨(p, d) :: fs.files.filter (fun e => !(e.1 == p)), fs.dirs⟩

/-- Models `os.Remove(path)` on the two removed cache files: deletes the file
at exactly that path; a missing file is a swallowed error.  (In every
modelled scenario the two paths passed to it are files, never directories.) -/
def FS.removeFile (fs : FS) (p : String) : FS :=
  ⟨fs.files.filter (fun e => !(e.1 == p)), fs.dirs⟩

/-- True when `p` is the path `root` itself or lies strictly inside the tree
rooted at `root`. -/
def inTree (root p : String) : Bool :=
  p == root || (root ++ "/").isPrefixOf p

/-- Models `os.RemoveAll(root)`: removes the named path and everything below
it, whether files or directories. -/
def FS.removeAll (fs : FS) (root : String) : FS :=
  ⟨fs.files.filter (fun e => !inTree root e.1), fs.dirs.filter (fun d => !inTree root d)⟩

/-- Errors of the embedding; each corresponds to a `panic` site in the Go
code (panic is the code's fatal-error propagation). -/
inductive GoErr
  | malformedData
  | nilDereference
  | unsupportedOperation (msg : String)
deriving DecidableEq

/-- Models the marshal dispatch inside `save` (config.go): a file name ending
in `.yaml` is marshalled with the yaml codec, anything else with the json
codec. -/
def marshal (file : String) (v : Val) : Doc :=
  if hasSuffix file ".yaml" then ⟨Fmt.yaml, v⟩ else ⟨Fmt.json, v⟩

/-- Models the unmarshal dispatch inside `load` (config.go): the codec is
chosen by the `.yaml` suffix, and a document in the other format fails to
parse. -/
def unmarshal {α : Type} (file : String) (dec : Val → α → Option α) (d : Doc) (t : α) : Option α :=
  if hasSuffix file ".yaml" then
    match d with
    | ⟨Fmt.yaml, v⟩ => dec v t
    | _ => none
  else
    match d with
    | ⟨Fmt.json, v⟩ => dec v t
    | _ => none

/-- Field present with a string value, or absent (unmarshal then keeps the
target's value); any other type fails the decode. -/
def strOk (l : List (String × Scalar)) (k : String) : Bool :=
  match alistGet k l with
  | none => true
  | some (Scalar.str _) => true
  | some _ => false

/-- String field value, defaulting to the target's current value when the key
is absent. -/
def strD (l : List (String × Scalar)) (k : String) (dflt : String) : String :=
  match alistGet k l with
  | some (Scalar.str s) => s
  | _ => dflt

/-- Field present with an integer value, or absent. -/
def intOk (l : List (String × Scalar)) (k : String) : Bool :=
  match alistGet k l with
  | none => true
  | some (Scalar.int _) => true
  | some _ => false

/-- Integer field value, defaulting to the target's current value. -/
def intD (l : List (String × Scalar)) (k : String) (dflt : Int) : Int :=
  match alistGet k l with
  | some (Scalar.int n) => n
  | _ => dflt

/-- Field present with a boolean value, or absent. -/
def boolOk (l : List (String × Scalar)) (k : String) : Bool :=
  match alistGet k l with
  | none => true
  | some (Scalar.bool _) => true
  | some _ => false

/-- Boolean field value, defaulting to the target's current value. -/
def boolD (l : List (String × Scalar)) (k : String) (dflt : Bool) : Bool :=
  match alistGet k l with
  | some (Scalar.bool b) => b
  | _ => dflt

/-- Marshalling of `AuthCache`: the three yaml-tagged fields, in declaration
order. -/
def encAuthCache (a : AuthCache) : Val :=
  Val.obj [("next_batch", Scalar.str a.NextBatch),
           ("filter_id", Scalar.str a.FilterID),
           ("initial_sync_done", Scalar.bool a.InitialSyncDone)]

/-- Unmarshalling of `AuthCache` into an existing target: tagged fields
present in the document overwrite the target, absent fields keep it, a type
mismatch fails. -/
def decAuthCache (v : Val) (t : AuthCache) : Option AuthCache :=
  match v with
  | Val.obj l =>
    if strOk l "next_batch" && strOk l "filter_id" && boolOk l "initial_sync_done" then
      some { NextBatch := strD l "next_batch" t.NextBatch,
             FilterID := strD l "filter_id" t.FilterID,
             InitialSyncDone := boolD l "initial_sync_done" t.InitialSyncDone }
    else none
  | _ => none

/-- Marshalling of `UserPreferences`: the eleven yaml-tagged toggles. -/
def encPreferences (p : UserPreferences) : Val :=
  Val.obj [("hide_user_list", Scalar.bool p.HideUserList),
           ("hide_room_list", Scalar.bool p.HideRoomList),
           ("bare_message_view", Scalar.bool p.BareMessageView),
           ("disable_images", Scalar.bool p.DisableImages),
           ("disable_typing_notifs", Scalar.bool p.DisableTypingNotifs),
           ("disable_emojis", Scalar.bool p.DisableEmojis),
           ("disable_markdown", Scalar.bool p.DisableMarkdown),
           ("disable_html", Scalar.bool p.DisableHTML),
           ("disable_downloads", Scalar.bool p.DisableDownloads),
           ("disable_notifications", Scalar.bool p.DisableNotifications),
           ("disable_show_urls", Scalar.bool p.DisableShowURLs)]

/-- Unmarshalling of `UserPreferences` into an existing target. -/
def decPreferences (v : Val) (t : UserPreferences) : Option UserPreferences :=
  match v with
  | Val.obj l =>
    if boolOk l "hide_user_list" && boolOk l "hide_room_list" && boolOk l "bare_message_view" &&
        boolOk l "disable_images" && boolOk l "disable_typing_notifs" &&
        boolOk l "disable_emojis" && boolOk l "disable_markdown" && boolOk l "disable_html" &&
        boolOk l "disable_downloads" && boolOk l "disable_notifications" &&
        boolOk l "disable_show_urls" then
      some { HideUserList := boolD l "hide_user_list" t.HideUserList,
             HideRoomList := boolD l "hide_room_list" t.HideRoomList,
             BareMessageView := boolD l "bare_message_view" t.BareMessageView,
             DisableImages := boolD l "disable_images" t.DisableImages,
             DisableTypingNotifs := boolD l "disable_typing_notifs" t.DisableTypingNotifs,
             DisableEmojis := boolD l "disable_emojis" t.DisableEmojis,
             DisableMarkdown := boolD l "disable_markdown" t.DisableMarkdown,
             DisableHTML := boolD l "disable_html" t.DisableHTML,
             DisableDownloads := boolD l "disable_downloads" t.DisableDownloads,
             DisableNotifications := boolD l "disable_notifications" t.DisableNotifications,
             DisableShowURLs := boolD l "disable_show_urls" t.DisableShowURLs }
    else none
  | _ => none

/-- Marshalling of `KeyMap`: the yaml-tagged key bindings in declaration
order (note `FuzzySearchClose` is tagged `fuzzy_search_cancel`). -/
def encKeyMap (k : KeyMap) : Val :=
  Val.obj [("verification_done", Scalar.str k.VerificationDone),
           ("verification_submit", Scalar.str k.VerificationSubmit),
           ("fuzzy_search_open", Scalar.str k.FuzzySearchOpen),
           ("fuzzy_search_cancel", Scalar.str k.FuzzySearchClose),
           ("fuzzy_search_next", Scalar.str k.FuzzySearchNext),
           ("fuzzy_search_prev", Scalar.str k.FuzzySearchPrev),
           ("fuzzy_search_choose", Scalar.str k.FuzzySearchChoose),
           ("room_next", Scalar.str k.RoomNext),
           ("room_prev", Scalar.str k.RoomPrev),
           ("room_view_top", Scalar.str k.RoomViewTop),
           ("room_view_bottom", Scalar.str k.RoomViewBottom),
           ("room_view_scroll_up", Scalar.str k.RoomViewScrollUp),
           ("room_view_scroll_down", Scalar.str k.RoomViewScrollDown),
           ("message_select_cancel", Scalar.str k.MessageSelectCancel),
           ("message_select_next", Scalar.str k.MessageSelectNext),
           ("message_select_prev", Scalar.str k.MessageSelectPrev),
           ("message_select_choose", Scalar.str k.MessageSelectChoose),
           ("message_input_newline", Scalar.str k.MessageInputNewline),
           ("message_input_clear", Scalar.str k.MessageInputClear),
           ("message_input_send", Scalar.str k.MessageInputSend),
           ("bare_view_open", Scalar.str k.BareViewOpen)]

/-- Unmarshalling of `KeyMap` into an existing target. -/
def decKeyMap (v : Val) (t : KeyMap) : Option KeyMap :=
  match v with
  | Val.obj l =>
    if strOk l "verification_done" && strOk l "verification_submit" &&
        strOk l "fuzzy_search_open" && strOk l "fuzzy_search_cancel" &&
        strOk l "fuzzy_search_next" && strOk l "fuzzy_search_prev" &&
        strOk l "fuzzy_search_choose" && strOk l "room_next" && strOk l "room_prev" &&
        strOk l "room_view_top" && strOk l "room_view_bottom" &&
        strOk l "room_view_scroll_up" && strOk l "room_view_scroll_down" &&
        strOk l "message_select_cancel" && strOk l "message_select_next" &&
        strOk l "message_select_prev" && strOk l "message_select_choose" &&
        strOk l "message_input_newline" && strOk l "message_input_clear" &&
        strOk l "message_input_send" && strOk l "bare_view_open" then
      some { VerificationDone := strD l "verification_done" t.VerificationDone,
             VerificationSubmit := strD l "verification_submit" t.VerificationSubmit,
             FuzzySearchOpen := strD l "fuzzy_search_open" t.FuzzySearchOpen,
             FuzzySearchClose := strD l "fuzzy_search_cancel" t.FuzzySearchClose,
             FuzzySearchNext := strD l "fuzzy_search_next" t.FuzzySearchNext,
             FuzzySearchPrev := strD l "fuzzy_search_prev" t.FuzzySearchPrev,
             FuzzySearchChoose := strD l "fuzzy_search_choose" t.FuzzySearchChoose,
             RoomNext := strD l "room_next" t.RoomNext,
             RoomPrev := strD l "room_prev" t.RoomPrev,
             RoomViewTop := strD l "room_view_top" t.RoomViewTop,
             RoomViewBottom := strD l "room_view_bottom" t.RoomViewBottom,
             RoomViewScrollUp := strD l "room_view_scroll_up" t.RoomViewScrollUp,
             RoomViewScrollDown := strD l "room_view_scroll_down" t.RoomViewScrollDown,
             MessageSelectCancel := strD l "message_select_cancel" t.MessageSelectCancel,
             MessageSelectNext := strD l "message_select_next" t.MessageSelectNext,
             MessageSelectPrev := strD l "message_select_prev" t.MessageSelectPrev,
             MessageSelectChoose := strD l "message_select_choose" t.MessageSelectChoose,
             MessageInputNewline := strD l "message_input_newline" t.MessageInputNewline,
             MessageInputClear := strD l "message_input_clear" t.MessageInputClear,
             MessageInputSend := strD l "message_input_send" t.MessageInputSend,
             BareViewOpen := strD l "bare_view_open" t.BareViewOpen }
    else none
  | _ => none

/-- Marshalling of the push-rules section: `json.Marshal(&config.PushRules)`
renders a nil `*PushRuleset` as null and otherwise the opaque ruleset. -/
def encPushRules (r : Option PushRuleset) : Val :=
  match r with
  | none => Val.null
  | some pr => Val.rules pr

/-- Unmarshalling of the push-rules section into a nil-able pointer target. -/
def decPushRules (v : Val) (_t : Option PushRuleset) : Option (Option PushRuleset) :=
  match v with
  | Val.null => some none
  | Val.rules pr => some (some pr)
  | _ => none

/-- Marshalling of the main settings section: exactly the yaml-tagged fields
of `Config`, in declaration order.  Fields tagged `yaml:"-"` (Dir, KeyMap,
Preferences, AuthCache, Rooms, PushRules) and the unexported `nosave` flag are
not serialized. -/
def encConfig (c : Config) : Val :=
  Val.obj [("mxid", Scalar.str c.UserID),
           ("device_id", Scalar.str c.DeviceID),
           ("access_token", Scalar.str c.AccessToken),
           ("homeserver", Scalar.str c.HS),
           ("room_cache_size", Scalar.int c.RoomCacheSize),
           ("room_cache_age", Scalar.int c.RoomCacheAge),
           ("notify_sound", Scalar.bool c.NotifySound),
           ("send_to_verified_only", Scalar.bool c.SendToVerifiedOnly),
           ("data_dir", Scalar.str c.DataDir),
           ("cache_dir", Scalar.str c.CacheDir),
           ("history_path", Scalar.str c.HistoryPath),
           ("room_list_path", Scalar.str c.RoomListPath),
           ("media_dir", Scalar.str c.MediaDir),
           ("download_dir", Scalar.str c.DownloadDir),
           ("state_dir", Scalar.str c.StateDir),
           ("keymap", Scalar.str c.Keymap)]

/-- Unmarshalling of the main settings section into an existing target:
only the yaml-tagged fields can be set; everything else keeps the target's
value. -/
def decConfig (v : Val) (t : Config) : Option Config :=
  match v with
  | Val.obj l =>
    if strOk l "mxid" && strOk l "device_id" && strOk l "access_token" &&
        strOk l "homeserver" && intOk l "room_cache_size" && intOk l "room_cache_age" &&
        boolOk l "notify_sound" && boolOk l "send_to_verified_only" &&
        strOk l "data_dir" && strOk l "cache_dir" && strOk l "history_path" &&
        strOk l "room_list_path" && strOk l "media_dir" && strOk l "download_dir" &&
        strOk l "state_dir" && strOk l "keymap" then
      some { t with
              UserID := strD l "mxid" t.UserID,
              DeviceID := strD l "device_id" t.DeviceID,
              AccessToken := strD l "access_token" t.AccessToken,
              HS := strD l "homeserver" t.HS,
              RoomCacheSize := intD l "room_cache_size" t.RoomCacheSize,
              RoomCacheAge := intD l "room_cache_age" t.RoomCacheAge,
              NotifySound := boolD l "notify_sound" t.NotifySound,
              SendToVerifiedOnly := boolD l "send_to_verified_only" t.SendToVerifiedOnly,
              DataDir := strD l "data_dir" t.DataDir,
              CacheDir := strD l "cache_dir" t.CacheDir,
              HistoryPath := strD l "history_path" t.HistoryPath,
              RoomListPath := strD l "room_list_path" t.RoomListPath,
              MediaDir := strD l "media_dir" t.MediaDir,
              DownloadDir := strD l "download_dir" t.DownloadDir,
              StateDir := strD l "state_dir" t.StateDir,
              Keymap := strD l "keymap" t.Keymap }
    else none
  | _ => none

/-- Models the generic `load` method (config.go): ensure the directory
exists, read the file, treat a missing file as success leaving the target
untouched, and otherwise unmarshal with the suffix-dispatched codec; a parse
failure is the panic site, modelled as `Except.error`. -/
def load {α : Type} (dec : Val → α → Option α) (fs : FS) (dir file : String)
    (target : α) : FS × Except GoErr α :=
  let fs1 := fs.mkdirAll dir
  match fs1.readFile (pjoin dir file) with
  | none => (fs1, Except.ok target)
  | some d =>
    match unmarshal file dec d target with
    | some v => (fs1, Except.ok v)
    | none => (fs1, Except.error GoErr.malformedData)

/-- Models the generic `save` method (config.go): if the save-suppression
flag is set return immediately; otherwise ensure the directory exists,
marshal with the suffix-dispatched codec and write the file whole. -/
def save {α : Type} (nosave : Bool) (enc : α → Val) (fs : FS) (dir file : String)
    (source : α) : FS :=
  if nosave then fs
  else
    let fs1 := fs.mkdirAll dir
    fs1.writeFile (pjoin dir file) (marshal file (enc source))

/-- Modelled from the spec: `RoomCache.LoadList` reads the room-list file; a
missing file is the valid first-run state.  The external gob payload is not
interpreted by the core, so a present file is treated as decodable and only
flips the loaded flag. -/
def RoomCache.LoadList (rc : RoomCache) (fs : FS) : Except GoErr RoomCache :=
  match fs.readFile rc.listPath with
  | none => Except.ok rc
  | some _ => Except.ok { rc with listLoaded := true }

/-- Modelled from the spec: `RoomCache.SaveList` writes the room list to its
file in the external gob format; the opaque payload is not modelled. -/
def RoomCache.SaveList (rc : RoomCache) (fs : FS) : FS :=
  fs.writeFile rc.listPath ⟨Fmt.gob, Val.null⟩

/-- Modelled from the spec: `RoomCache.SaveLoadedRooms` persists each
currently loaded entry under the state directory (no entries are loaded in
any modelled scenario). -/
def RoomCache.SaveLoadedRooms (rc : RoomCache) (fs : FS) : FS :=
  rc.loadedRooms.foldl (fun acc r => acc.writeFile (pjoin rc.stateDir r) ⟨Fmt.gob, Val.null⟩) fs

/-- GetUserID mirrors `Config.GetUserID`. -/
def Config.GetUserID (c : Config) : String := c.UserID

/-- CreateCacheDirs mirrors `Config.CreateCacheDirs`: idempotently creates
the cache, data, state and media directories (failures are swallowed; the
model's creation never fails). -/
def Config.CreateCacheDirs (c : Config) (fs : FS) : FS :=
  (((fs.mkdirAll c.CacheDir).mkdirAll c.DataDir).mkdirAll c.StateDir).mkdirAll c.MediaDir

/-- Clear mirrors `Config.Clear`: best-effort removal of the history file,
room-list file, state, media and cache directories, then sets the
save-suppression flag. -/
def Config.Clear (c : Config) (fs : FS) : Config × FS :=
  let fs := fs.removeFile c.HistoryPath
  let fs := fs.removeFile c.RoomListPath
  let fs := fs.removeAll c.StateDir
  let fs := fs.removeAll c.MediaDir
  let fs := fs.removeAll c.CacheDir
  ({ c with nosave := true }, fs)

/-- ClearData mirrors `Config.ClearData`: best-effort removal of the data
directory; the config (and its suppression flag) is untouched. -/
def Config.ClearData (c : Config) (fs : FS) : FS :=
  fs.removeAll c.DataDir

/-- DeleteSession mirrors `Config.DeleteSession`: clears the auth-cache
next-batch and initial-sync fields and the access-token/device-id fields,
installs a brand-new room cache, drops the push rules, runs `ClearData` then
`Clear`, re-enables saving and recreates the cache directories. -/
def Config.DeleteSession (c : Config) (fs : FS) : Config × FS :=
  let c := { c with
              AuthCache.NextBatch := ""
              AuthCache.InitialSyncDone := false
              AccessToken := ""
              DeviceID := ""
              Rooms := some (NewRoomCache c.RoomListPath c.StateDir c.RoomCacheSize c.RoomCacheAge)
              PushRules := none }
  let fs := c.ClearData fs
  let (c, fs) := c.Clear fs
  let c := { c with nosave := false }
  let fs := c.CreateCacheDirs fs
  (c, fs)

/-- Load mirrors `Config.Load`: loads `config.yaml` into the config itself,
then creates the cache directories (using the possibly updated paths). -/
def Config.Load (c : Config) (fs : FS) : FS × Except GoErr Config :=
  match load decConfig fs c.Dir "config.yaml" c with
  | (fs1, Except.ok c1) => (c1.CreateCacheDirs fs1, Except.ok c1)
  | (fs1, Except.error e) => (fs1, Except.error e)

/-- Save mirrors `Config.Save`: saves the main settings to `config.yaml`. -/
def Config.Save (c : Config) (fs : FS) : FS :=
  save c.nosave encConfig fs c.Dir "config.yaml" c

/-- LoadPreferences mirrors `Config.LoadPreferences`. -/
def Config.LoadPreferences (c : Config) (fs : FS) : FS × Except GoErr Config :=
  match load decPreferences fs c.CacheDir "preferences.yaml" c.Preferences with
  | (fs1, Except.ok p) => (fs1, Except.ok { c with Preferences := p })
  | (fs1, Except.error e) => (fs1, Except.error e)

/-- SavePreferences mirrors `Config.SavePreferences`. -/
def Config.SavePreferences (c : Config) (fs : FS) : FS :=
  save c.nosave encPreferences fs c.CacheDir "preferences.yaml" c.Preferences

/-- LoadAuthCache mirrors `Config.LoadAuthCache`. -/
def Config.LoadAuthCache (c : Config) (fs : FS) : FS × Except GoErr Config :=
  match load decAuthCache fs c.CacheDir "auth-cache.yaml" c.AuthCache with
  | (fs1, Except.ok a) => (fs1, Except.ok { c with AuthCache := a })
  | (fs1, Except.error e) => (fs1, Except.error e)

/-- SaveAuthCache mirrors `Config.SaveAuthCache`. -/
def Config.SaveAuthCache (c : Config) (fs : FS) : FS :=
  save c.nosave encAuthCache fs c.CacheDir "auth-cache.yaml" c.AuthCache

/-- LoadPushRules mirrors `Config.LoadPushRules`: loads `pushrules.json`
into the nil-able push-rules pointer. -/
def Config.LoadPushRules (c : Config) (fs : FS) : FS × Except GoErr Config :=
  match load decPushRules fs c.CacheDir "pushrules.json" c.PushRules with
  | (fs1, Except.ok r) => (fs1, Except.ok { c with PushRules := r })
  | (fs1, Except.error e) => (fs1, Except.error e)

/-- SavePushRules mirrors `Config.SavePushRules`: a nil ruleset returns
immediately; otherwise the section is saved like any other. -/
def Config.SavePushRules (c : Config) (fs : FS) : FS :=
  match c.PushRules with
  | none => fs
  | some _ => save c.nosave encPushRules fs c.CacheDir "pushrules.json" c.PushRules

/-- LoadKeymap mirrors `Config.LoadKeymap`: loads the file named after the
active keymap from the `keymaps` directory under the config dir. -/
def Config.LoadKeymap (c : Config) (fs : FS) : FS × Except GoErr Config :=
  match load decKeyMap fs (pjoin c.Dir "keymaps") (c.Keymap ++ ".yaml") c.KeyMap with
  | (fs1, Except.ok k) => (fs1, Except.ok { c with KeyMap := k })
  | (fs1, Except.error e) => (fs1, Except.error e)

/-- LoadAll mirrors `Config.LoadAll`: load main settings, construct a fresh
room cache with the current path layout and tunables, load the auth cache,
the push rules and the preferences, then ask the room cache to load its
list; any failure is fatal (a panic in the Go code). -/
def Config.LoadAll (c : Config) (fs : FS) : FS × Except GoErr Config :=
  match c.Load fs with
  | (fs, Except.error e) => (fs, Except.error e)
  | (fs, Except.ok c) =>
    let c := { c with
                Rooms := some (NewRoomCache c.RoomListPath c.StateDir c.RoomCacheSize c.RoomCacheAge) }
    match c.LoadAuthCache fs with
    | (fs, Except.error e) => (fs, Except.error e)
    | (fs, Except.ok c) =>
      match c.LoadPushRules fs with
      | (fs, Except.error e) => (fs, Except.error e)
      | (fs, Except.ok c) =>
        match c.LoadPreferences fs with
        | (fs, Except.error e) => (fs, Except.error e)
        | (fs, Except.ok c) =>
          match c.Rooms with
          | none => (fs, Except.error GoErr.nilDereference)
          | some rc =>
            match rc.LoadList fs with
            | Except.ok rc1 => (fs, Except.ok { c with Rooms := some rc1 })
            | Except.error e => (fs, Except.error e)

/-- SaveAll mirrors `Config.SaveAll`: save main settings, auth cache, push
rules (skipped when nil) and preferences, then ask the room cache to save its
list and its loaded entries; calling through a nil room-cache pointer is the
nil-dereference panic. -/
def Config.SaveAll (c : Config) (fs : FS) : FS × Except GoErr Unit :=
  let fs := c.Save fs
  let fs := c.SaveAuthCache fs
  let fs := c.SavePushRules fs
  let fs := c.SavePreferences fs
  match c.Rooms with
  | none => (fs, Except.error GoErr.nilDereference)
  | some rc => (rc.SaveLoadedRooms (rc.SaveList fs), Except.ok ())

/-- SaveFilterID mirrors `Config.SaveFilterID`: the user-id argument is
accepted for interface compatibility and ignored; the setter stores the
filter id and eagerly saves the auth-cache section. -/
def Config.SaveFilterID (c : Config) (_userID filterID : String) (fs : FS) : Config × FS :=
  let c := { c with AuthCache.FilterID := filterID }
  (c, c.SaveAuthCache fs)

/-- LoadFilterID mirrors `Config.LoadFilterID`. -/
def Config.LoadFilterID (c : Config) (_userID : String) : String :=
  c.AuthCache.FilterID

/-- SaveNextBatch mirrors `Config.SaveNextBatch`: stores the sync token and
eagerly saves the auth-cache section. -/
def Config.SaveNextBatch (c : Config) (_userID nextBatch : String) (fs : FS) : Config × FS :=
  let c := { c with AuthCache.NextBatch := nextBatch }
  (c, c.SaveAuthCache fs)

/-- LoadNextBatch mirrors `Config.LoadNextBatch`. -/
def Config.LoadNextBatch (c : Config) (_userID : String) : String :=
  c.AuthCache.NextBatch

/-- MautrixRoom stands for the opaque `*mautrix.Room` argument of the
unsupported room accessors; its contents are never touched. -/
structure MautrixRoom where
  roomID : String
deriving DecidableEq

/-- SaveRoom mirrors `Config.SaveRoom`: always panics. -/
def Config.SaveRoom (_c : Config) (_room : MautrixRoom) : Except GoErr Unit :=
  Except.error (GoErr.unsupportedOperation "SaveRoom is not supported")

/-- LoadRoom mirrors `Config.LoadRoom`: always panics, never returns a room. -/
def Config.LoadRoom (_c : Config) (_roomID : String) : Except GoErr MautrixRoom :=
  Except.error (GoErr.unsupportedOperation "LoadRoom is not supported")

/-- Op enumerates the public operations of the configuration aggregate, with
the arguments that matter to its state. -/
inductive Op
  | save
  | saveAuthCache
  | savePreferences
  | savePushRules
  | saveFilterID (userID filterID : String)
  | saveNextBatch (userID nextBatch : String)
  | saveAll
  | load
  | loadAuthCache
  | loadPreferences
  | loadPushRules
  | loadKeymap
  | loadAll
  | loadFilterID (userID : String)
  | loadNextBatch (userID : String)
  | clear
  | clearData
  | createCacheDirs
  | deleteSession
  | saveRoom (room : MautrixRoom)
  | loadRoom (roomID : String)
deriving DecidableEq

/-- St is the state an operation trace acts on: the aggregate, the file
system and whether a panic has unwound the program (after which nothing
further runs). -/
structure St where
  cfg : Config
  fs : FS
  dead : Bool
deriving DecidableEq

/-- step runs one public operation: a panic (an `Except.error`) marks the
state dead, keeping the partial file-system effects the Go code had already
performed; a dead state no longer changes. -/
def step (s : St) (op : Op) : St :=
  if s.dead then s
  else
    match op with
    | Op.save => { s with fs := s.cfg.Save s.fs }
    | Op.saveAuthCache => { s with fs := s.cfg.SaveAuthCache s.fs }
    | Op.savePreferences => { s with fs := s.cfg.SavePreferences s.fs }
    | Op.savePushRules => { s with fs := s.cfg.SavePushRules s.fs }
    | Op.saveFilterID uid fid =>
      match s.cfg.SaveFilterID uid fid s.fs with
      | (c, fs) => { cfg := c, fs := fs, dead := false }
    | Op.saveNextBatch uid nb =>
      match s.cfg.SaveNextBatch uid nb s.fs with
      | (c, fs) => { cfg := c, fs := fs, dead := false }
    | Op.saveAll =>
      match s.cfg.SaveAll s.fs with
      | (fs, Except.ok _) => { s with fs := fs }
      | (fs, Except.error _) => { s with fs := fs, dead := true }
    | Op.load =>
      match s.cfg.Load s.fs with
      | (fs, Except.ok c) => { cfg := c, fs := fs, dead := false }
      | (fs, Except.error _) => { s with fs := fs, dead := true }
    | Op.loadAuthCache =>
      match s.cfg.LoadAuthCache s.fs with
      | (fs, Except.ok c) => { cfg := c, fs := fs, dead := false }
      | (fs, Except.error _) => { s with fs := fs, dead := true }
    | Op.loadPreferences =>
      match s.cfg.LoadPreferences s.fs with
      | (fs, Except.ok c) => { cfg := c, fs := fs, dead := false }
      | (fs, Except.error _) => { s with fs := fs, dead := true }
    | Op.loadPushRules =>
      match s.cfg.LoadPushRules s.fs with
      | (fs, Except.ok c) => { cfg := c, fs := fs, dead := false }
      | (fs, Except.error _) => { s with fs := fs, dead := true }
    | Op.loadKeymap =>
      match s.cfg.LoadKeymap s.fs with
      | (fs, Except.ok c) => { cfg := c, fs := fs, dead := false }
      | (fs, Except.error _) => { s with fs := fs, dead := true }
    | Op.loadAll =>
      match s.cfg.LoadAll s.fs with
      | (fs, Except.ok c) => { cfg := c, fs := fs, dead := false }
      | (fs, Except.error _) => { s with fs := fs, dead := true }
    | Op.loadFilterID _ => s
    | Op.loadNextBatch _ => s
    | Op.clear =>
      match s.cfg.Clear s.fs with
      | (c, fs) => { cfg := c, fs := fs, dead := false }
    | Op.clearData => { s with fs := s.cfg.ClearData s.fs }
    | Op.createCacheDirs => { s with fs := s.cfg.CreateCacheDirs s.fs }
    | Op.deleteSession =>
      match s.cfg.DeleteSession s.fs with
      | (c, fs) => { cfg := c, fs := fs, dead := false }
    | Op.saveRoom _ => { s with dead := true }
    | Op.loadRoom _ => { s with dead := true }

/-- True exactly for the per-section save operations named by the
suppression invariant: `Save`, `SaveAuthCache`, `SavePreferences`,
`SavePushRules` and the eager saves of `SaveFilterID`/`SaveNextBatch`. -/
def isSectionSave : Op → Bool
  | Op.save => true
  | Op.saveAuthCache => true
  | Op.savePreferences => true
  | Op.savePushRules => true
  | Op.saveFilterID _ _ => true
  | Op.saveNextBatch _ _ => true
  | _ => false

/-- Every section-save operation occurring anywhere along the trace `ops`
starting from `s` leaves the file system exactly as it found it. -/
def savesWriteNothing : St → List Op → Prop
  | _, [] => True
  | s, op :: rest =>
    (isSectionSave op = true → (step s op).fs = s.fs) ∧ savesWriteNothing (step s op) rest

/-! Helper lemmas about the file-system model. -/

/-- Directory creation does not touch the file table. -/
theorem FS.files_mkdirAll (fs : FS) (d : String) : (fs.mkdirAll d).files = fs.files := rfl

/-- Reading is insensitive to directory creation. -/
theorem FS.readFile_mkdirAll (fs : FS) (d p : String) :
    (fs.mkdirAll d).readFile p = fs.readFile p := rfl

/-- An empty file table answers every read with does-not-exist. -/
theorem FS.readFile_of_files_eq_nil {fs : FS} (h : fs.files = []) (p : String) :
    fs.readFile p = none := by
  unfold FS.readFile
  rw [h]
  rfl

/-- Filtering a filtered list again with the same predicate changes nothing. -/
theorem filter_idem {α : Type} (p : α → Bool) (l : List α) :
    (l.filter p).filter p = l.filter p :=
  List.filter_eq_self.mpr fun _ ha => (List.mem_filter.mp ha).2

/-- A filter that rejects the inserted directory cancels the insertion. -/
theorem filter_insD_of_false {p : String → Bool} {d : String} (hp : p d = false)
    (l : List String) : (insD d l).filter p = l.filter p := by
  unfold insD
  split
  · rfl
  · simp [List.filter, hp]

/-- The inserted directory is present after insertion. -/
theorem mem_insD_self (d : String) (l : List String) : d ∈ insD d l := by
  unfold insD
  split
  · assumption
  · exact List.mem_cons_self _ _

/-- Insertion preserves the directories already present. -/
theorem mem_insD_of_mem {x : String} {l : List String} (h : x ∈ l) (d : String) :
    x ∈ insD d l := by
  unfold insD
  split
  · exact h
  · exact List.mem_cons_of_mem _ h

/-- A path is always in its own tree. -/
theorem inTree_self (p : String) : inTree p p = true := by
  simp [inTree]

/-! Helper lemmas about the save and load primitives. -/

/-- The generic load on a missing file creates the directory, reports no
error and returns the target it was given. -/
theorem load_absent {α : Type} (dec : Val → α → Option α) {fs : FS} {dir file : String}
    (h : fs.readFile (pjoin dir file) = none) (t : α) :
    load dec fs dir file t = (fs.mkdirAll dir, Except.ok t) := by
  simp only [load]
  rw [FS.readFile_mkdirAll, h]

/-- The generic save under suppression returns the file system untouched. -/
theorem save_suppressed {α : Type} (enc : α → Val) (fs : FS) (dir file : String) (src : α) :
    save true enc fs dir file src = fs := rfl

/-- Successful unmarshalling transports any property the decoder preserves. -/
theorem unmarshal_rel {α : Type} {P : α → Prop} {dec : Val → α → Option α}
    (hdec : ∀ v t x, dec v t = some x → P t → P x)
    {file : String} {d : Doc} {t x : α} (h : unmarshal file dec d t = some x) (ht : P t) :
    P x := by
  unfold unmarshal at h
  split at h
  · split at h
    · exact hdec _ _ _ h ht
    · exact Option.noConfusion h
  · split at h
    · exact hdec _ _ _ h ht
    · exact Option.noConfusion h

/-- A successful generic load transports any property the decoder preserves
from the target it starts from to the value it returns. -/
theorem load_rel {α : Type} {P : α → Prop} {dec : Val → α → Option α}
    (hdec : ∀ v t x, dec v t = some x → P t → P x)
    {fs : FS} {dir file : String} {t : α} {fs1 : FS} {x : α}
    (h : load dec fs dir file t = (fs1, Except.ok x)) (ht : P t) : P x := by
  simp only [load] at h
  split at h
  · simp [Prod.ext_iff] at h
    exact h.2 ▸ ht
  · split at h
    · rename_i v hv
      simp [Prod.ext_iff] at h
      exact h.2 ▸ unmarshal_rel hdec hv ht
    · simp [Prod.ext_iff] at h

/-- Decoding the main settings never changes the suppression flag (it is not
serialized). -/
theorem decConfig_nosave : ∀ v t x, decConfig v t = some x → x.nosave = t.nosave := by
  intro v t x h
  unfold decConfig at h
  split at h
  · split at h
    · have h2 := Option.some.inj h
      subst h2
      rfl
    · exact Option.noConfusion h
  · exact Option.noConfusion h

/-- A successful `Load` keeps the suppression flag (the flag is unexported
and never serialized, so unmarshalling cannot set it). -/
theorem Load_ok_nosave {c : Config} {fs fs1 : FS} {c1 : Config}
    (h : c.Load fs = (fs1, Except.ok c1)) : c1.nosave = c.nosave := by
  unfold Config.Load at h
  split at h
  · rename_i fs2 c2 heq
    simp only [Prod.mk.injEq, Except.ok.injEq] at h
    have hp : c2.nosave = c.nosave :=
      load_rel (fun v t x hd ht => (decConfig_nosave v t x hd).trans ht) heq rfl
    exact h.2 ▸ hp
  · simp only [Prod.mk.injEq] at h
    exact absurd h.2 (by simp)

/-- A successful `LoadAuthCache` keeps the suppression flag. -/
theorem LoadAuthCache_ok_nosave {c : Config} {fs fs1 : FS} {c1 : Config}
    (h : c.LoadAuthCache fs = (fs1, Except.ok c1)) : c1.nosave = c.nosave := by
  unfold Config.LoadAuthCache at h
  split at h
  · simp only [Prod.mk.injEq, Except.ok.injEq] at h
    exact h.2 ▸ rfl
  · simp only [Prod.mk.injEq] at h
    exact absurd h.2 (by simp)

/-- A successful `LoadPreferences` keeps the suppression flag. -/
theorem LoadPreferences_ok_nosave {c : Config} {fs fs1 : FS} {c1 : Config}
    (h : c.LoadPreferences fs = (fs1, Except.ok c1)) : c1.nosave = c.nosave := by
  unfold Config.LoadPreferences at h
  split at h
  · simp only [Prod.mk.injEq, Except.ok.injEq] at h
    exact h.2 ▸ rfl
  · simp only [Prod.mk.injEq] at h
    exact absurd h.2 (by simp)

/-- A successful `LoadPushRules` keeps the suppression flag. -/
theorem LoadPushRules_ok_nosave {c : Config} {fs fs1 : FS} {c1 : Config}
    (h : c.LoadPushRules fs = (fs1, Except.ok c1)) : c1.nosave = c.nosave := by
  unfold Config.LoadPushRules at h
  split at h
  · simp only [Prod.mk.injEq, Except.ok.injEq] at h
    exact h.2 ▸ rfl
  · simp only [Prod.mk.injEq] at h
    exact absurd h.2 (by simp)

/-- A successful `LoadKeymap` keeps the suppression flag. -/
theorem LoadKeymap_ok_nosave {c : Config} {fs fs1 : FS} {c1 : Config}
    (h : c.LoadKeymap fs = (fs1, Except.ok c1)) : c1.nosave = c.nosave := by
  unfold Config.LoadKeymap at h
  split at h
  · simp only [Prod.mk.injEq, Except.ok.injEq] at h
    exact h.2 ▸ rfl
  · simp only [Prod.mk.injEq] at h
    exact absurd h.2 (by simp)

/-- A successful `LoadAll` keeps the suppression flag. -/
theorem LoadAll_ok_nosave {c : Config} {fs fs1 : FS} {c1 : Config}
    (h : c.LoadAll fs = (fs1, Except.ok c1)) : c1.nosave = c.nosave := by
  simp only [Config.LoadAll] at h
  split at h
  · simp only [Prod.mk.injEq] at h
    exact absurd h.2 (by simp)
  · rename_i fs2 c2 heq1
    split at h
    · simp only [Prod.mk.injEq] at h
      exact absurd h.2 (by simp)
    · rename_i fs3 c3 heq2
      split at h
      · simp only [Prod.mk.injEq] at h
        exact absurd h.2 (by simp)
      · rename_i fs4 c4 heq3
        split at h
        · simp only [Prod.mk.injEq] at h
          exact absurd h.2 (by simp)
        · rename_i fs5 c5 heq4
          split at h
          · simp only [Prod.mk.injEq] at h
            exact absurd h.2 (by simp)
          · rename_i rc hrc
            split at h
            · rename_i rc1 hrc1
              simp only [Prod.mk.injEq, Except.ok.injEq] at h
              have h2 : c2.nosave = c.nosave := Load_ok_nosave heq1
              have h3 := LoadAuthCache_ok_nosave heq2
              dsimp only at h3
              have h4 : c4.nosave = c3.nosave := LoadPushRules_ok_nosave heq3
              have h5 : c5.nosave = c4.nosave := LoadPreferences_ok_nosave heq4
              have h6 : c1.nosave = c5.nosave := by
                rw [← h.2]
              rw [h6, h5, h4, h3, h2]
            · simp only [Prod.mk.injEq] at h
              exact absurd h.2 (by simp)

/-- Transition table of the suppression flag: `clear` sets it,
`deleteSession` clears it, every other operation leaves it alone, and a dead
state no longer changes. -/
theorem nosave_step (s : St) (op : Op) :
    (step s op).cfg.nosave =
      if s.dead then s.cfg.nosave
      else
        match op with
        | Op.clear => true
        | Op.deleteSession => false
        | _ => s.cfg.nosave := by
  by_cases hd : s.dead
  · simp [step, hd]
  · simp only [hd, if_false]
    cases op with
    | save => simp [step, hd]
    | saveAuthCache => simp [step, hd]
    | savePreferences => simp [step, hd]
    | savePushRules => simp [step, hd]
    | saveFilterID uid fid => simp [step, hd, Config.SaveFilterID]
    | saveNextBatch uid nb => simp [step, hd, Config.SaveNextBatch]
    | saveAll =>
      simp only [step, hd, Bool.false_eq_true, if_false]
      split <;> rfl
    | load =>
      simp only [step, hd, Bool.false_eq_true, if_false]
      split
      · rename_i fs1 c1 heq
        exact Load_ok_nosave heq
      · rfl
    | loadAuthCache =>
      simp only [step, hd, Bool.false_eq_true, if_false]
      split
      · rename_i fs1 c1 heq
        exact LoadAuthCache_ok_nosave heq
      · rfl
    | loadPreferences =>
      simp only [step, hd, Bool.false_eq_true, if_false]
      split
      · rename_i fs1 c1 heq
        exact LoadPreferences_ok_nosave heq
      · rfl
    | loadPushRules =>
      simp only [step, hd, Bool.false_eq_true, if_false]
      split
      · rename_i fs1 c1 heq
        exact LoadPushRules_ok_nosave heq
      · rfl
    | loadKeymap =>
      simp only [step, hd, Bool.false_eq_true, if_false]
      split
      · rename_i fs1 c1 heq
        exact LoadKeymap_ok_nosave heq
      · rfl
    | loadAll =>
      simp only [step, hd, Bool.false_eq_true, if_false]
      split
      · rename_i fs1 c1 heq
        exact LoadAll_ok_nosave heq
      · rfl
    | loadFilterID uid => simp [step, hd]
    | loadNextBatch uid => simp [step, hd]
    | clear => simp [step, hd, Config.Clear]
    | clearData => simp [step, hd]
    | createCacheDirs => simp [step, hd]
    | deleteSession => simp [step, hd, Config.DeleteSession, Config.Clear]
    | saveRoom room => simp [step, hd]
    | loadRoom roomID => simp [step, hd]

/-- While the suppression flag is set, every section-save operation leaves
the whole file system untouched. -/
theorem sectionSave_fs_frozen {s : St} {op : Op} (hns : s.cfg.nosave = true)
    (hop : isSectionSave op = true) : (step s op).fs = s.fs := by
  by_cases hd : s.dead
  · simp [step, hd]
  · cases op with
    | save => simp [step, hd, Config.Save, save, hns]
    | saveAuthCache => simp [step, hd, Config.SaveAuthCache, save, hns]
    | savePreferences => simp [step, hd, Config.SavePreferences, save, hns]
    | savePushRules =>
      cases hp : s.cfg.PushRules <;>
        simp [step, hd, Config.SavePushRules, save, hns, hp]
    | saveFilterID uid fid =>
      simp [step, hd, Config.SaveFilterID, Config.SaveAuthCache, save, hns]
    | saveNextBatch uid nb =>
      simp [step, hd, Config.SaveNextBatch, Config.SaveAuthCache, save, hns]
    | saveAll => exact absurd hop (by simp [isSectionSave])
    | load => exact absurd hop (by simp [isSectionSave])
    | loadAuthCache => exact absurd hop (by simp [isSectionSave])
    | loadPreferences => exact absurd hop (by simp [isSectionSave])
    | loadPushRules => exact absurd hop (by simp [isSectionSave])
    | loadKeymap => exact absurd hop (by simp [isSectionSave])
    | loadAll => exact absurd hop (by simp [isSectionSave])
    | loadFilterID uid => exact absurd hop (by simp [isSectionSave])
    | loadNextBatch uid => exact absurd hop (by simp [isSectionSave])
    | clear => exact absurd hop (by simp [isSectionSave])
    | clearData => exact absurd hop (by simp [isSectionSave])
    | createCacheDirs => exact absurd hop (by simp [isSectionSave])
    | deleteSession => exact absurd hop (by simp [isSectionSave])
    | saveRoom room => exact absurd hop (by simp [isSectionSave])
    | loadRoom roomID => exact absurd hop (by simp [isSectionSave])

/-- The suppression flag stays set across any operation other than
`deleteSession`. -/
theorem nosave_true_preserved {s : St} {op : Op} (h : s.cfg.nosave = true)
    (hop : op ≠ Op.deleteSession) : (step s op).cfg.nosave = true := by
  rw [nosave_step]
  by_cases hd : s.dead
  · simpa [hd] using h
  · simp only [hd, if_false]
    cases op <;> simp_all

/-- Once the suppression flag is set, along any trace that does not run
`deleteSession` every section-save leaves the file system as it found it. -/
theorem savesWriteNothing_of_nosave {s : St} (h : s.cfg.nosave = true) :
    ∀ ops : List Op, Op.deleteSession ∉ ops → savesWriteNothing s ops := by
  intro ops
  induction ops generalizing s with
  | nil => intro _; trivial
  | cons op rest ih =>
    intro hops
    have hop : op ≠ Op.deleteSession := by
      intro he
      exact hops (he ▸ List.mem_cons_self _ _)
    refine ⟨fun hsave => sectionSave_fs_frozen h hsave, ?_⟩
    exact ih (nosave_true_preserved h hop) fun hmem => hops (List.mem_cons_of_mem _ hmem)

/-! Claim theorems. -/

/-- C1: once `Clear()` has run it sets the save-suppression flag, and along
any subsequent trace of aggregate operations that does not contain
`DeleteSession()`, every save operation on any section (`Save`,
`SaveAuthCache`, `SavePreferences`, `SavePushRules`, and the saves triggered
by `SaveFilterID`/`SaveNextBatch`) returns without writing, creating or
modifying any file; `DeleteSession()` is the operation that re-enables
saving. -/
theorem C1_clear_suppresses_section_saves (c : Config) (fs : FS) (ops : List Op)
    (hops : Op.deleteSession ∉ ops) :
    (step ⟨c, fs, false⟩ Op.clear).cfg.nosave = true ∧
    savesWriteNothing (step ⟨c, fs, false⟩ Op.clear) ops ∧
    (step ⟨c, fs, false⟩ Op.deleteSession).cfg.nosave = false := by
  have h1 : (step ⟨c, fs, false⟩ Op.clear).cfg.nosave = true := by
    simp [step, Config.Clear]
  refine ⟨h1, savesWriteNothing_of_nosave h1 ops hops, ?_⟩
  simp [step, Config.DeleteSession, Config.Clear, Config.ClearData, Config.CreateCacheDirs]

/-- Witness for C1 at a concrete aggregate, file system and trace. -/
theorem C1_witness :
    Op.deleteSession ∉ [Op.save, Op.saveAuthCache, Op.savePushRules] ∧
    ((step ⟨Config.zero, ⟨[], []⟩, false⟩ Op.clear).cfg.nosave = true ∧
     savesWriteNothing (step ⟨Config.zero, ⟨[], []⟩, false⟩ Op.clear)
       [Op.save, Op.saveAuthCache, Op.savePushRules] ∧
     (step ⟨Config.zero, ⟨[], []⟩, false⟩ Op.deleteSession).cfg.nosave = false) :=
  ⟨by decide,
   C1_clear_suppresses_section_saves Config.zero ⟨[], []⟩
     [Op.save, Op.saveAuthCache, Op.savePushRules] (by decide)⟩

/-- C2: the save-suppression flag admits exactly two transitions: `Clear()`
sets it and `DeleteSession()` (whose completion includes the reset) clears
it; every other operation of the aggregate, in particular `ClearData()`,
leaves it unchanged. -/
theorem C2_nosave_transition_table (c : Config) (fs : FS) (op : Op) :
    (step ⟨c, fs, false⟩ op).cfg.nosave =
      match op with
      | Op.clear => true
      | Op.deleteSession => false
      | _ => c.nosave := by
  have h := nosave_step ⟨c, fs, false⟩ op
  simpa using h

/-- Record equation for the aggregate after `DeleteSession` (helper shared by
several proofs): the next-batch and initial-sync fields, the access token and
the device id are cleared, a fresh room cache is installed from the current
path layout and tunables, the push rules are dropped and saving is
re-enabled; every other field keeps its prior value. -/
theorem DeleteSession_cfg (c : Config) (fs : FS) :
    (c.DeleteSession fs).1 =
      { c with
          AuthCache.NextBatch := ""
          AuthCache.InitialSyncDone := false
          AccessToken := ""
          DeviceID := ""
          Rooms := some (NewRoomCache c.RoomListPath c.StateDir c.RoomCacheSize c.RoomCacheAge)
          PushRules := none
          nosave := false } := rfl

/-- C3 (corrected): after `DeleteSession()` the aggregate is not in general
the state produced by `NewConfig` with the same roots.  What holds is the
precise postcondition: next-batch and initial-sync-done are cleared but the
filter id is retained, access token and device id are cleared but user id
and homeserver are retained, the push-rule cache is dropped, the room cache
is replaced by a brand-new empty instance built from the current path layout
and tunables, saving is re-enabled, and every other field (paths, tunables,
keymap, key bindings, preferences) keeps its prior value. -/
theorem C3_deleteSession_postcondition (c : Config) (fs : FS) :
    (c.DeleteSession fs).1 =
      { c with
          AuthCache.NextBatch := ""
          AuthCache.InitialSyncDone := false
          AccessToken := ""
          DeviceID := ""
          Rooms := some (NewRoomCache c.RoomListPath c.StateDir c.RoomCacheSize c.RoomCacheAge)
          PushRules := none
          nosave := false } :=
  DeleteSession_cfg c fs

/-- Counterexample for C3 as stated: starting from the freshly constructed
aggregate with a non-empty filter id, `DeleteSession` neither returns the
freshly-constructed state (the room cache differs and the filter id
survives) nor leaves the auth cache empty. -/
theorem C3_counterexample :
    (Config.DeleteSession
        { NewConfig "c" "d" "e" "w" with AuthCache.FilterID := "x" } ⟨[], []⟩).1 ≠
      NewConfig "c" "d" "e" "w" ∧
    (Config.DeleteSession
        { NewConfig "c" "d" "e" "w" with AuthCache.FilterID := "x" } ⟨[], []⟩).1.AuthCache ≠
      AuthCache.zero := by
  decide

/-- Stability under a filter survives further filtering. -/
theorem pipe_stable {α : Type} {p : α → Bool} (q : α → Bool) {l : List α}
    (h : l.filter p = l) : (l.filter q).filter p = l.filter q :=
  List.filter_eq_self.mpr fun a ha =>
    List.filter_eq_self.mp h a (List.mem_filter.mp ha).1

/-- Running the same six-stage filter pipeline twice is the same as running
it once (the removal phase of `DeleteSession` is such a pipeline). -/
theorem pipe6_idem {α : Type} (p1 p2 p3 p4 p5 p6 : α → Bool) (l : List α) :
    (((((((((((l.filter p1).filter p2).filter p3).filter p4).filter p5).filter p6).filter
        p1).filter p2).filter p3).filter p4).filter p5).filter p6 =
      (((((l.filter p1).filter p2).filter p3).filter p4).filter p5).filter p6 := by
  have s1 := pipe_stable p6 (pipe_stable p5 (pipe_stable p4 (pipe_stable p3 (pipe_stable p2
    (filter_idem p1 l)))))
  have s2 := pipe_stable p6 (pipe_stable p5 (pipe_stable p4 (pipe_stable p3
    (filter_idem p2 (l.filter p1)))))
  have s3 := pipe_stable p6 (pipe_stable p5 (pipe_stable p4
    (filter_idem p3 ((l.filter p1).filter p2))))
  have s4 := pipe_stable p6 (pipe_stable p5
    (filter_idem p4 (((l.filter p1).filter p2).filter p3)))
  have s5 := pipe_stable p6
    (filter_idem p5 ((((l.filter p1).filter p2).filter p3).filter p4))
  have s6 := filter_idem p6 (((((l.filter p1).filter p2).filter p3).filter p4).filter p5)
  rw [s1, s2, s3, s4, s5, s6]

/-- A filter rejecting all four inserted directories cancels the insertions. -/
theorem filterK_ins4 {K : String → Bool} {d1 d2 d3 d4 : String}
    (h1 : K d1 = false) (h2 : K d2 = false) (h3 : K d3 = false) (h4 : K d4 = false)
    (l : List String) :
    (insD d4 (insD d3 (insD d2 (insD d1 l)))).filter K = l.filter K := by
  rw [filter_insD_of_false h4, filter_insD_of_false h3, filter_insD_of_false h2,
      filter_insD_of_false h1]

set_option maxHeartbeats 1000000 in
/-- Running `DeleteSession` twice in a row yields exactly the state after
running it once: the second run repeats the field assignments with the same
values, removes only what the first run already removed, and recreates the
same directories. -/
theorem DeleteSession_idem (c : Config) (fs : FS) :
    Config.DeleteSession (c.DeleteSession fs).1 (c.DeleteSession fs).2 = c.DeleteSession fs := by
  simp only [Config.DeleteSession, Config.ClearData, Config.Clear, Config.CreateCacheDirs,
    FS.removeAll, FS.removeFile, FS.mkdirAll]
  refine congrArg (Prod.mk _) ?_
  rw [FS.mk.injEq]
  refine ⟨pipe6_idem _ _ _ _ _ _ fs.files, ?_⟩
  simp only [List.filter_filter]
  refine congrArg (insD _) (congrArg (insD _) (congrArg (insD _) (congrArg (insD _) ?_)))
  rw [filterK_ins4 (by simp [inTree_self]) (by simp [inTree_self])
      (by simp [inTree_self]) (by simp [inTree_self]), filter_idem]

set_option maxHeartbeats 1000000 in
/-- C5 (corrected): calling `DeleteSession()` twice in a row produces exactly
the same end state both times — the second call changes nothing — and that
common end state has the next-batch and initial-sync fields cleared (the
filter id is retained, so the auth cache is not empty in general), the access
token and device id cleared (the user id is retained), the push rules
dropped, saving enabled, a fresh empty room cache, and all four cache
directories present. -/
theorem C5_deleteSession_idempotent (c : Config) (fs : FS) :
    Config.DeleteSession (c.DeleteSession fs).1 (c.DeleteSession fs).2 = c.DeleteSession fs ∧
    (c.DeleteSession fs).1.AuthCache.NextBatch = "" ∧
    (c.DeleteSession fs).1.AuthCache.InitialSyncDone = false ∧
    (c.DeleteSession fs).1.AuthCache.FilterID = c.AuthCache.FilterID ∧
    (c.DeleteSession fs).1.AccessToken = "" ∧
    (c.DeleteSession fs).1.DeviceID = "" ∧
    (c.DeleteSession fs).1.UserID = c.UserID ∧
    (c.DeleteSession fs).1.PushRules = none ∧
    (c.DeleteSession fs).1.nosave = false ∧
    (c.DeleteSession fs).1.Rooms =
      some (NewRoomCache c.RoomListPath c.StateDir c.RoomCacheSize c.RoomCacheAge) ∧
    c.CacheDir ∈ (c.DeleteSession fs).2.dirs ∧ c.DataDir ∈ (c.DeleteSession fs).2.dirs ∧
    c.StateDir ∈ (c.DeleteSession fs).2.dirs ∧ c.MediaDir ∈ (c.DeleteSession fs).2.dirs := by
  refine ⟨DeleteSession_idem c fs, rfl, rfl, rfl, rfl, rfl, rfl, rfl, rfl, rfl, ?_, ?_, ?_, ?_⟩ <;>
  · simp only [Config.DeleteSession, Config.ClearData, Config.Clear, Config.CreateCacheDirs,
      FS.removeAll, FS.removeFile, FS.mkdirAll]
    first
    | exact mem_insD_of_mem (mem_insD_of_mem (mem_insD_of_mem (mem_insD_self _ _) _) _) _
    | exact mem_insD_of_mem (mem_insD_of_mem (mem_insD_self _ _) _) _
    | exact mem_insD_of_mem (mem_insD_self _ _) _
    | exact mem_insD_self _ _

/-- Counterexample for C5 as stated: the common end state does not have an
empty auth cache (the filter id survives) nor empty identity fields (the
user id survives). -/
theorem C5_counterexample :
    (Config.DeleteSession { Config.zero with AuthCache.FilterID := "y", UserID := "u" }
        ⟨[], []⟩).1.AuthCache ≠ AuthCache.zero ∧
    (Config.DeleteSession { Config.zero with AuthCache.FilterID := "y", UserID := "u" }
        ⟨[], []⟩).1.UserID ≠ "" := by
  decide

/-- C4: for every section, running the load operation when the section's
file does not exist reports no error and leaves the load target at its
zero/default value; the missing file is not treated as a failure. -/
theorem C4_load_missing_file_keeps_defaults :
    (∀ (fs : FS) (dir : String), fs.readFile (pjoin dir "config.yaml") = none →
      load decConfig fs dir "config.yaml" Config.zero = (fs.mkdirAll dir, Except.ok Config.zero)) ∧
    (∀ (fs : FS) (dir : String), fs.readFile (pjoin dir "auth-cache.yaml") = none →
      load decAuthCache fs dir "auth-cache.yaml" AuthCache.zero =
        (fs.mkdirAll dir, Except.ok AuthCache.zero)) ∧
    (∀ (fs : FS) (dir : String), fs.readFile (pjoin dir "preferences.yaml") = none →
      load decPreferences fs dir "preferences.yaml" UserPreferences.zero =
        (fs.mkdirAll dir, Except.ok UserPreferences.zero)) ∧
    (∀ (fs : FS) (dir : String), fs.readFile (pjoin dir "pushrules.json") = none →
      load decPushRules fs dir "pushrules.json" (none : Option PushRuleset) =
        (fs.mkdirAll dir, Except.ok (none : Option PushRuleset))) ∧
    (∀ (fs : FS) (dir file : String), fs.readFile (pjoin dir file) = none →
      load decKeyMap fs dir file KeyMap.zero = (fs.mkdirAll dir, Except.ok KeyMap.zero)) :=
  ⟨fun _ _ h => load_absent _ h _, fun _ _ h => load_absent _ h _,
   fun _ _ h => load_absent _ h _, fun _ _ h => load_absent _ h _,
   fun _ _ _ h => load_absent _ h _⟩

/-- Witness for C4 on a concrete empty file system. -/
theorem C4_witness :
    (⟨[], []⟩ : FS).readFile (pjoin "cd" "auth-cache.yaml") = none ∧
    load decAuthCache ⟨[], []⟩ "cd" "auth-cache.yaml" AuthCache.zero =
      ((⟨[], []⟩ : FS).mkdirAll "cd", Except.ok AuthCache.zero) :=
  ⟨rfl, C4_load_missing_file_keeps_defaults.2.1 ⟨[], []⟩ "cd" rfl⟩

/-- C10: when the section file is absent the generic load returns exactly
the prior target, whatever its value — defaults or in-memory mutations set
before the load survive — and in particular `Load()` returns the aggregate
unchanged (so the construction-time defaults are preserved). -/
theorem C10_load_missing_file_frame :
    (∀ (α : Type) (dec : Val → α → Option α) (fs : FS) (dir file : String) (t : α),
      fs.readFile (pjoin dir file) = none →
      load dec fs dir file t = (fs.mkdirAll dir, Except.ok t)) ∧
    (∀ (c : Config) (fs : FS), fs.readFile (pjoin c.Dir "config.yaml") = none →
      c.Load fs = (c.CreateCacheDirs (fs.mkdirAll c.Dir), Except.ok c)) := by
  refine ⟨fun _ dec _ _ _ t h => load_absent dec h t, fun c fs h => ?_⟩
  unfold Config.Load
  rw [load_absent decConfig h c]

/-- Witness for C10 with a non-zero prior target that survives the load. -/
theorem C10_witness :
    (⟨[], []⟩ : FS).readFile (pjoin "a" "auth-cache.yaml") = none ∧
    load decAuthCache ⟨[], []⟩ "a" "auth-cache.yaml" ⟨"nb", "fid", true⟩ =
      ((⟨[], []⟩ : FS).mkdirAll "a", Except.ok ⟨"nb", "fid", true⟩) :=
  ⟨rfl, C10_load_missing_file_frame.1 AuthCache decAuthCache ⟨[], []⟩ "a" "auth-cache.yaml"
    ⟨"nb", "fid", true⟩ rfl⟩

/-- C6: starting from fresh directories with no section files present,
`LoadAll()` succeeds and the resulting main settings carry the documented
defaults: room-cache capacity 32, room-cache max-age 60 seconds,
notify-sound on, send-to-verified-only off, keymap name `default`. -/
theorem C6_loadAll_fresh_defaults (configDir dataDir cacheDir downloadDir : String) (fs : FS)
    (h : fs.files = []) :
    ∃ c1, ((NewConfig configDir dataDir cacheDir downloadDir).LoadAll fs).2 = Except.ok c1 ∧
      c1.RoomCacheSize = 32 ∧ c1.RoomCacheAge = 60 ∧ c1.NotifySound = true ∧
      c1.SendToVerifiedOnly = false ∧ c1.Keymap = "default" := by
  obtain ⟨fl, ds⟩ := fs
  dsimp only at h
  subst h
  exact ⟨_, rfl, rfl, rfl, rfl, rfl, rfl⟩

/-- Witness for C6 on a concrete empty file system. -/
theorem C6_witness :
    (⟨[], []⟩ : FS).files = [] ∧
    ∃ c1, ((NewConfig "a" "b" "c" "d").LoadAll ⟨[], []⟩).2 = Except.ok c1 ∧
      c1.RoomCacheSize = 32 ∧ c1.RoomCacheAge = 60 ∧ c1.NotifySound = true ∧
      c1.SendToVerifiedOnly = false ∧ c1.Keymap = "default" :=
  ⟨rfl, C6_loadAll_fresh_defaults "a" "b" "c" "d" ⟨[], []⟩ rfl⟩

/-- C7: with an absent (nil) ruleset, `SavePushRules()` returns immediately
without any write, and `SaveAll` performs exactly the remaining saves,
skipping the push-rules step entirely; absence is a valid state, not an
error. -/
theorem C7_savePushRules_nil_skips (c : Config) (fs : FS) (h : c.PushRules = none) :
    c.SavePushRules fs = fs ∧
    c.SaveAll fs =
      (let fs1 := c.Save fs
       let fs2 := c.SaveAuthCache fs1
       let fs3 := c.SavePreferences fs2
       match c.Rooms with
       | none => (fs3, Except.error GoErr.nilDereference)
       | some rc => (rc.SaveLoadedRooms (rc.SaveList fs3), Except.ok ())) := by
  constructor
  · simp [Config.SavePushRules, h]
  · simp [Config.SaveAll, Config.SavePushRules, h]

/-- Witness for C7 at a freshly constructed aggregate (its ruleset is nil). -/
theorem C7_witness :
    (NewConfig "a" "b" "c" "d").PushRules = none ∧
    ((NewConfig "a" "b" "c" "d").SavePushRules ⟨[], []⟩ = ⟨[], []⟩ ∧
     (NewConfig "a" "b" "c" "d").SaveAll ⟨[], []⟩ =
       (let fs1 := (NewConfig "a" "b" "c" "d").Save ⟨[], []⟩
        let fs2 := (NewConfig "a" "b" "c" "d").SaveAuthCache fs1
        let fs3 := (NewConfig "a" "b" "c" "d").SavePreferences fs2
        match (NewConfig "a" "b" "c" "d").Rooms with
        | none => (fs3, Except.error GoErr.nilDereference)
        | some rc => (rc.SaveLoadedRooms (rc.SaveList fs3), Except.ok ()))) :=
  ⟨rfl, C7_savePushRules_nil_skips (NewConfig "a" "b" "c" "d") ⟨[], []⟩ rfl⟩

/-- C8: the room-object persistence accessors fail fatally with the
unsupported-operation panic for every argument; neither call ever silently
succeeds or returns a room. -/
theorem C8_room_accessors_unsupported :
    (∀ (c : Config) (room : MautrixRoom),
      c.SaveRoom room = Except.error (GoErr.unsupportedOperation "SaveRoom is not supported")) ∧
    (∀ (c : Config) (roomID : String),
      c.LoadRoom roomID = Except.error (GoErr.unsupportedOperation "LoadRoom is not supported")) :=
  ⟨fun _ _ => rfl, fun _ _ => rfl⟩

/-- The sub-record of the main settings that is actually serialized: the
yaml-tagged fields of `Config`; the fields tagged as skipped (config dir,
parsed keymap, preferences, auth cache, room cache, push rules) and the
unexported suppression flag decode to their zero values in a fresh target. -/
def serializedConfig (c : Config) : Config :=
  { Config.zero with
      UserID := c.UserID, DeviceID := c.DeviceID, AccessToken := c.AccessToken, HS := c.HS,
      RoomCacheSize := c.RoomCacheSize, RoomCacheAge := c.RoomCacheAge,
      NotifySound := c.NotifySound, SendToVerifiedOnly := c.SendToVerifiedOnly,
      DataDir := c.DataDir, CacheDir := c.CacheDir, HistoryPath := c.HistoryPath,
      RoomListPath := c.RoomListPath, MediaDir := c.MediaDir, DownloadDir := c.DownloadDir,
      StateDir := c.StateDir, Keymap := c.Keymap }

/-- C9 (corrected): decode-after-encode under the suffix-dispatched codec is
the identity for the auth-cache, preferences, keymap and push-rules sections
(including the nil ruleset), but for the main settings it returns only the
serialized projection: fields tagged as not serialized are reset to zero, so
the roundtrip is the identity exactly on values whose unserialized fields are
zero. -/
theorem C9_roundtrip (a : AuthCache) (p : UserPreferences) (k : KeyMap)
    (r : Option PushRuleset) (c : Config) :
    unmarshal "auth-cache.yaml" decAuthCache
        (marshal "auth-cache.yaml" (encAuthCache a)) AuthCache.zero = some a ∧
    unmarshal "preferences.yaml" decPreferences
        (marshal "preferences.yaml" (encPreferences p)) UserPreferences.zero = some p ∧
    unmarshal "default.yaml" decKeyMap
        (marshal "default.yaml" (encKeyMap k)) KeyMap.zero = some k ∧
    unmarshal "pushrules.json" decPushRules
        (marshal "pushrules.json" (encPushRules r)) (none : Option PushRuleset) = some r ∧
    unmarshal "config.yaml" decConfig
        (marshal "config.yaml" (encConfig c)) Config.zero = some (serializedConfig c) := by
  refine ⟨rfl, rfl, rfl, ?_, rfl⟩
  cases r <;> rfl

/-- Counterexample for C9 as stated: a main-settings value with a non-zero
non-serialized field (the config directory) does not survive the roundtrip. -/
theorem C9_counterexample :
    unmarshal "config.yaml" decConfig
        (marshal "config.yaml" (encConfig { Config.zero with Dir := "x" })) Config.zero ≠
      some { Config.zero with Dir := "x" } := by
  decide

end GomuksConfig
